import Mathlib

/-!
Verification development for the ttsutil repository.

The definitions below are a shallow embedding of the state-relevant parts of
the repository sources:
  - ttsfromtemplate_awspolly.py   (function ttsfromtemplate_awspolly)
  - ttsfromtemplate_ttsmonster.py (function ttsfromtemplate_ttsmonster)
  - createttstemplate.py          (the merge loop inside main)
  - updateallsoundpacks.py        (update_all_soundpacks, _count_missing_for_service)

External collaborators (the speech backends, the requests library and the
ffmpeg transcoder) are modelled as per-job oracles ranging over the outcomes
their interfaces allow, so that each per-job control path of the source maps
to one branch of the embedded step function.  The filesystem is modelled as
the set of complete files at final target paths, the set of partial files the
external transcoder may leave at its destination path when it fails mid-way,
and a count of live staging temp files.
-/

/-- One manifest/template entry, as in the template item json format
{path, tts_text, ssml_text} documented at the top of both provider modules. -/
structure TemplateItem where
  path : String
  tts_text : String
  ssml_text : String
deriving DecidableEq, Repr

/-- Filesystem state under the sounds directory of one pack:
complete files at final paths, partial files left at final paths by a failed
external transcode, and the number of live staging temp files. -/
structure FS where
  files : List String
  partials : List String
  temps : Nat
deriving DecidableEq, Repr

/-- A path exists on disk: Path.exists() is true for complete and for partial
files alike. -/
def FS.existsAt (fs : FS) (p : String) : Prop :=
  p ∈ fs.files ∨ p ∈ fs.partials

instance (fs : FS) (p : String) : Decidable (fs.existsAt p) := by
  unfold FS.existsAt; infer_instance

/-- ttsfromtemplate_ttsmonster.py line 45: max volume normalization offset. -/
def MAX_VOL_DB_OFFSET : ℚ := -(1/2)

/-- ttsfromtemplate_ttsmonster.py line 46: TTS text length of this or less
gets extra TTS file size allowance. -/
def SHORT_TEXT_LENGTH : Nat := 9

/-- ttsfromtemplate_ttsmonster.py line 47: 2KB per character allowed in
output TTS file size. -/
def BIT_ALLOWANCE_PER_CHAR : Nat := 2048

/-- ttsfromtemplate_ttsmonster.py line 48: +1KB per character allowance for
very short text. -/
def EXTRA_BITS_FOR_SHORT : Nat := 1024

/-- ttsfromtemplate_ttsmonster.py lines 197-200: the size ceiling computed by
the quality check, as a function of len(tts_text). -/
def max_size (ttsLen : Nat) : Nat :=
  let base := BIT_ALLOWANCE_PER_CHAR * ttsLen
  if ttsLen ≤ SHORT_TEXT_LENGTH then base + EXTRA_BITS_FOR_SHORT * ttsLen else base

/-- ttsfromtemplate_awspolly.py lines 217-219: gain in dB applied by the
volume filter, as a function of the measured peak; zero when no volume filter
is inserted (input_max_volume at or above -0.5). -/
def polly_volume_adjustment (p : ℚ) : ℚ :=
  if p < -(1/2) then -p - 1/2 else 0

/-- ttsfromtemplate_ttsmonster.py lines 187-189: gain in dB applied by the
volume filter, as a function of the measured peak; zero when no volume filter
is inserted (max_volume at or above MAX_VOL_DB_OFFSET).  The source computes
volume_adjustment = -max_volume - MAX_VOL_DB_OFFSET. -/
def ttsm_volume_adjustment (p : ℚ) : ℚ :=
  if p < MAX_VOL_DB_OFFSET then -p - MAX_VOL_DB_OFFSET else 0

/-- How the processing of one template item ends. -/
inductive ItemOutcome
  | skippedExisting
  | created
  | droppedSsml
  | transientSkip
  | rejected
  | abortRun
deriving DecidableEq, Repr

/-- Observable events of one synchronizer run. providerCall marks the
synthesis request sent to the backend. -/
inductive SyncEvent
  | providerCall (p : String)
  | transientLog (p : String)
  | rejectedLog (p : String)
  | invalidSsmlLog (p : String)
deriving DecidableEq, Repr

/-- Outcome of polly_client.synthesize_speech for one job
(ttsfromtemplate_awspolly.py lines 153-172). -/
inductive PollySynth
  | ok
  | invalidSsml
  | botoError
  | noAudioStream
deriving DecidableEq, Repr

/-- Outcome of the external ffmpeg encode run: success, failure leaving a
partial file at the destination path, or failure leaving nothing.  The tool
is a black box invoked with the final target path as its destination
(ttsfromtemplate_awspolly.py lines 223-233); on failure it may have already
written part of the output there. -/
inductive EncodeOutcome
  | ok
  | failPartial
  | failClean
deriving DecidableEq, Repr

/-- Per-job behaviour of the external collaborators of the AWS Polly variant:
the synthesize_speech outcome, whether writing the stream to the staging temp
file succeeds (ttsfromtemplate_awspolly.py lines 176-183), the measured peak
(none models the get_max_volume failure of lines 189-194), and the encode
outcome (lines 228-233). -/
structure PollyItemEnv where
  synth : PollySynth
  tempWriteOk : Bool
  vol : Option ℚ
  encode : EncodeOutcome
deriving DecidableEq, Repr

/-- Outcome of ttsmapi_client.generate for one job
(ttsfromtemplate_ttsmonster.py lines 136-146 and 154, 215-217): success with
a url in the response, success without one, a connection error or read
timeout (the transient case), or a TTSMAPIError or HTTPError. -/
inductive TtsmGen
  | okUrl
  | okNoUrl
  | transient
  | apiError
deriving DecidableEq, Repr

/-- Outcome of the final ffmpeg run of the TTS.Monster variant
(ttsfromtemplate_ttsmonster.py line 192): success with the resulting output
file size in bytes, or failure ending the run with possibly partial output at
the destination, which is the final target path. -/
inductive TtsmEncode
  | ok (size : Nat)
  | fail
deriving DecidableEq, Repr

/-- Per-job behaviour of the external collaborators of the TTS.Monster
variant: generate outcome, whether fetching the returned URL succeeds
(ttsfromtemplate_ttsmonster.py lines 158, 212-214), the measured peak (none
models the ValueError of lines 162-165), and the encode outcome. -/
structure TtsmItemEnv where
  gen : TtsmGen
  fetchOk : Bool
  vol : Option ℚ
  encode : TtsmEncode
deriving DecidableEq, Repr

/-- One iteration of the per-item loop of ttsfromtemplate_awspolly
(ttsfromtemplate_awspolly.py lines 119-246).  The staging temp file is
created with delete=False (line 179); it is unlinked on the analysis-error
path (line 193), on the encode-error path (line 232) and on success
(line 236), but not on the path where writing the stream to it raises OSError
(lines 181-183), so that path nets one more live temp file.  The applied gain
is polly_volume_adjustment of the measured peak and does not change which
files exist, so it is not repeated here. -/
def pollyStep (env : PollyItemEnv) (item : TemplateItem) (fs : FS) :
    ItemOutcome × FS × List SyncEvent :=
  if fs.existsAt item.path then
    (.skippedExisting, fs, [])
  else
    match env.synth with
    | .invalidSsml =>
        (.droppedSsml, fs, [.providerCall item.path, .invalidSsmlLog item.path])
    | .botoError => (.abortRun, fs, [.providerCall item.path])
    | .noAudioStream => (.abortRun, fs, [.providerCall item.path])
    | .ok =>
        if env.tempWriteOk = false then
          (.abortRun, { fs with temps := fs.temps + 1 }, [.providerCall item.path])
        else
          match env.vol with
          | none => (.abortRun, fs, [.providerCall item.path])
          | some _ =>
              match env.encode with
              | .failPartial =>
                  (.abortRun, { fs with partials := item.path :: fs.partials },
                    [.providerCall item.path])
              | .failClean => (.abortRun, fs, [.providerCall item.path])
              | .ok =>
                  (.created, { fs with files := item.path :: fs.files },
                    [.providerCall item.path])

/-- One iteration of the per-item loop of ttsfromtemplate_ttsmonster
(ttsfromtemplate_ttsmonster.py lines 118-229).  The staging temp file is a
context-managed NamedTemporaryFile (line 159) deleted when its block exits on
every path, so the live temp count is unchanged on all branches.  An
oversized file is unlinked and the loop continues (lines 197-210), so the
rejection branch nets an unchanged filesystem.  The applied gain is
ttsm_volume_adjustment of the measured peak and does not change which files
exist, so it is not repeated here; nor is the atempo filter of lines 173-174. -/
def ttsmStep (quality_checks : Bool) (env : TtsmItemEnv) (item : TemplateItem)
    (fs : FS) : ItemOutcome × FS × List SyncEvent :=
  if fs.existsAt item.path then
    (.skippedExisting, fs, [])
  else
    match env.gen with
    | .transient =>
        (.transientSkip, fs, [.providerCall item.path, .transientLog item.path])
    | .apiError => (.abortRun, fs, [.providerCall item.path])
    | .okNoUrl => (.abortRun, fs, [.providerCall item.path])
    | .okUrl =>
        if env.fetchOk = false then
          (.abortRun, fs, [.providerCall item.path])
        else
          match env.vol with
          | none => (.abortRun, fs, [.providerCall item.path])
          | some _ =>
              match env.encode with
              | .fail =>
                  (.abortRun, { fs with partials := item.path :: fs.partials },
                    [.providerCall item.path])
              | .ok size =>
                  if quality_checks ∧ max_size item.tts_text.length < size then
                    (.rejected, fs, [.providerCall item.path, .rejectedLog item.path])
                  else
                    (.created, { fs with files := item.path :: fs.files },
                      [.providerCall item.path])

/-- Result of one synchronizer run: the return code, the two counters of the
source (created_count, skipped_count), the final filesystem and the event
trace. -/
structure SyncResult where
  ret : Nat
  created_count : Nat
  skipped_count : Nat
  fs : FS
  events : List SyncEvent
deriving DecidableEq, Repr

/-- Prefix new events onto the trace of a later result. -/
def withEvents (evs : List SyncEvent) (r : SyncResult) : SyncResult :=
  ⟨r.ret, r.created_count, r.skipped_count, r.fs, evs ++ r.events⟩

/-- The per-directory synchronizer loop shared by both variants: fold the
step function over the template entries paired with their per-job external
behaviour, accumulating created_count and skipped_count exactly where the
sources increment them; return code 1 on the abort branches, 0 when the loop
finishes (ttsfromtemplate_awspolly.py lines 114-255,
ttsfromtemplate_ttsmonster.py lines 112-238). -/
def syncRun {E : Type}
    (step : E → TemplateItem → FS → ItemOutcome × FS × List SyncEvent) :
    List (TemplateItem × E) → FS → Nat → Nat → SyncResult
  | [], fs, c, k => ⟨0, c, k, fs, []⟩
  | job :: rest, fs, c, k =>
    match step job.2 job.1 fs with
    | (.abortRun, fs2, evs) => ⟨1, c, k, fs2, evs⟩
    | (.skippedExisting, fs2, evs) => withEvents evs (syncRun step rest fs2 c (k + 1))
    | (.created, fs2, evs) => withEvents evs (syncRun step rest fs2 (c + 1) k)
    | (.droppedSsml, fs2, evs) => withEvents evs (syncRun step rest fs2 c k)
    | (.transientSkip, fs2, evs) => withEvents evs (syncRun step rest fs2 c k)
    | (.rejected, fs2, evs) => withEvents evs (syncRun step rest fs2 c k)

/-- Python list.insert semantics: insert before index i, clamped to an append
when i is at or beyond the length. -/
def pyInsert {α : Type} (i : Nat) (a : α) (l : List α) : List α :=
  l.take i ++ a :: l.drop i

/-- One iteration of the template-merge loop of createttstemplate.py
(lines 66-117), restricted to the list-manipulating part the merge contract
is about: a discovered entry whose path already occurs in the current
template is counted as skipped; a novel entry is inserted at python index
created_count + skipped_count + 1 (line 116, the counts taken before their
increment) and counted as created.  The text-normalization heuristics that
build the discovered entry are upstream of this loop and are not modelled. -/
def mergeIteration (acc : List TemplateItem × Nat × Nat) (e : TemplateItem) :
    List TemplateItem × Nat × Nat :=
  if acc.1.any (fun x => x.path = e.path) then
    (acc.1, acc.2.1, acc.2.2 + 1)
  else
    (pyInsert (acc.2.1 + acc.2.2 + 1) e acc.1, acc.2.1 + 1, acc.2.2)

/-- The whole merge of discovered entries into an existing template
(createttstemplate.py lines 40-120): fold the per-entry iteration over the
discovered entries in discovery order, starting from the loaded template and
zero counters; returns (template, created_count, skipped_count). -/
def createttstemplate_merge (existing discovered : List TemplateItem) :
    List TemplateItem × Nat × Nat :=
  discovered.foldl mergeIteration (existing, 0, 0)

/-- One soundpack directory discovered by the fleet orchestrator: its name,
whether it contains the sounds subdirectory, and the files already present
under sounds (paths relative to the sounds directory).  A directory without
the sounds subdirectory has no files under it. -/
structure PackDir where
  name : String
  hasSounds : Bool
  files : List String
deriving DecidableEq, Repr

/-- _count_missing_for_service (updateallsoundpacks.py lines 38-64) for an
already-filtered list of matching directories: for every directory and every
template item whose target file does not exist, add one missing file and the
length of its tts_text to the totals. -/
def count_missing_for_service (dirs : List PackDir) (items : List TemplateItem) :
    Nat × Nat :=
  dirs.foldl
    (fun acc d =>
      items.foldl
        (fun acc2 it =>
          if it.path ∈ d.files then acc2
          else (acc2.1 + 1, acc2.2 + it.tts_text.length))
        acc)
    (0, 0)

/-- Observable events of one fleet-orchestrator run.  ttsmClientInit covers
ttsmapi.Client construction together with the user_info usage read of
updateallsoundpacks.py lines 137-145, which obtains the account usage from
the TTS.Monster backend.  pollyClientInit is the local boto3 client
construction of lines 112-116.  syncPolly and syncTtsm mark the per-directory
synchronizer invocations of lines 177-182 and 194-199, which perform the
synthesis network calls. -/
inductive OrchEvent
  | pollyClientInit
  | ttsmClientInit
  | prompt
  | skipNoSounds (name : String)
  | syncPolly (name : String)
  | syncTtsm (name : String)
  | syncErrorLog (name : String)
deriving DecidableEq, Repr

/-- Marks the events that involve talking to a backend over the network: the
TTS.Monster client initialization reads the account usage report from the
backend, and the per-directory synchronizer invocations perform synthesis
requests.  boto3 client construction, prompting and logging are local. -/
def isNetworkEvent : OrchEvent → Bool
  | .ttsmClientInit => true
  | .syncPolly _ => true
  | .syncTtsm _ => true
  | _ => false

/-- Marks the events that perform synthesis work (the cost-incurring
per-directory synchronizer invocations). -/
def isSynthesisEvent : OrchEvent → Bool
  | .syncPolly _ => true
  | .syncTtsm _ => true
  | _ => false

/-- Everything a fleet-orchestrator run depends on: the discovered
directories of each provider group, the shared template, whether the
credential environment variables are set and the client constructions
succeed, the operator answer to the prompt, and the return code of each
per-directory synchronizer invocation. -/
structure OrchConfig where
  pollyDirs : List PackDir
  ttsmDirs : List PackDir
  items : List TemplateItem
  awsProfileSet : Bool
  pollyInitOk : Bool
  ttsmKeySet : Bool
  ttsmInitOk : Bool
  confirm : Bool
  pollyRet : String → Nat
  ttsmRet : String → Nat

/-- Concatenation of the per-element event lists of a directory group. -/
def concatMap {α β : Type} (f : α → List β) : List α → List β
  | [] => []
  | a :: r => f a ++ concatMap f r

/-- Events of driving one provider group (updateallsoundpacks.py
lines 169-201): a directory without the sounds subfolder is skipped with a
log line; otherwise the per-directory synchronizer is invoked and a nonzero
return code is reported with an error log, after which the loop continues
with the next directory. -/
def driveGroup (sync : String → OrchEvent) (ret : String → Nat)
    (dirs : List PackDir) : List OrchEvent :=
  concatMap
    (fun d =>
      if d.hasSounds = false then [.skipNoSounds d.name]
      else sync d.name :: (if ret d.name ≠ 0 then [.syncErrorLog d.name] else []))
    dirs

/-- update_all_soundpacks (updateallsoundpacks.py lines 67-203), with the
template and base directory taken as already loaded and valid.  Mirrors the
source order: count AWS Polly missing work, initialize the Polly client when
it is nonzero (lines 105-116), count TTS.Monster missing work, initialize the
TTS.Monster client and read its usage when that is nonzero (lines 129-145),
then prompt exactly when either count is nonzero (lines 158-165), exiting
with 0 on decline or when nothing is missing, and finally drive each provider
group whose count is nonzero (lines 169-201).  Returns the return code and
the event trace. -/
def update_all_soundpacks (c : OrchConfig) : Nat × List OrchEvent :=
  let pMiss := (count_missing_for_service c.pollyDirs c.items).1
  let tMiss := (count_missing_for_service c.ttsmDirs c.items).1
  if 0 < pMiss ∧ c.awsProfileSet = false then (1, [])
  else if 0 < pMiss ∧ c.pollyInitOk = false then (1, [])
  else
    let evs0 : List OrchEvent := if 0 < pMiss then [.pollyClientInit] else []
    if 0 < tMiss ∧ c.ttsmKeySet = false then (1, evs0)
    else if 0 < tMiss ∧ c.ttsmInitOk = false then (1, evs0)
    else
      let evs1 := evs0 ++ (if 0 < tMiss then [.ttsmClientInit] else [])
      if 0 < tMiss ∨ 0 < pMiss then
        let evs2 := evs1 ++ [.prompt]
        if c.confirm = false then (0, evs2)
        else
          (0, evs2
            ++ (if 0 < pMiss then driveGroup .syncPolly c.pollyRet c.pollyDirs else [])
            ++ (if 0 < tMiss then driveGroup .syncTtsm c.ttsmRet c.ttsmDirs else []))
      else (0, evs1)

/-- The names of the directories for which a synchronizer invocation occurs
in a trace, in trace order. -/
def syncTargets : List OrchEvent → List String
  | [] => []
  | .syncPolly n :: r => n :: syncTargets r
  | .syncTtsm n :: r => n :: syncTargets r
  | _ :: r => syncTargets r

/-- A concrete fleet configuration with one TTS.Monster pack missing one
file, both credentials present, operator declining: used to evaluate the
orchestrator on a closed input. -/
def C6cfg : OrchConfig :=
  ⟨[], [⟨"TTSM-Voice1", true, []⟩], [⟨"a/x.mp3", "one", ""⟩],
   true, true, true, true, false, fun _ => 0, fun _ => 0⟩

/-- A concrete fleet configuration with two AWS Polly packs missing files,
the first of which fails synchronization, operator confirming: used to
evaluate the orchestrator on a closed input. -/
def C8cfg : OrchConfig :=
  ⟨[⟨"AWSPolly-Amy", true, []⟩, ⟨"AWSPolly-Brian", true, []⟩], [],
   [⟨"a/x.mp3", "one", ""⟩],
   true, true, true, true, true,
   fun n => if n = "AWSPolly-Amy" then 1 else 0, fun _ => 0⟩

/-- C2: the claim says both variants apply a gain of exactly m - p dB
(m = -0.5) when the measured peak p is below m.  The AWS Polly variant does;
the TTS.Monster variant computes -p - MAX_VOL_DB_OFFSET = -p + 0.5, one
whole dB more, so the resulting peak is +0.5 dB instead of the -0.5 dB its
own adjacent comment promises.  Evaluated at the failing input p = -3. -/
theorem C2_gain_bug :
    polly_volume_adjustment (-3) = 5/2 ∧
    ttsm_volume_adjustment (-3) = 7/2 ∧
    (-3 : ℚ) + ttsm_volume_adjustment (-3) = 1/2 ∧
    MAX_VOL_DB_OFFSET - (-3 : ℚ) = 5/2 ∧
    ttsm_volume_adjustment (-3) ≠ MAX_VOL_DB_OFFSET - (-3 : ℚ) := by
  refine ⟨?_, ?_, ?_, ?_, ?_⟩ <;>
    norm_num [polly_volume_adjustment, ttsm_volume_adjustment, MAX_VOL_DB_OFFSET]

/-- C4: evaluation of the merge at the failing input: an existing template of
two entries and one novel discovered entry.  The source inserts the novel
entry at python index created_count + skipped_count + 1 = 1, placing it
between the two existing entries instead of appending it, so the second
existing entry is no longer at its original position and the novel entry is
not at the end. -/
theorem C4_merge_bug :
    createttstemplate_merge
        [⟨"p0.mp3", "zero", ""⟩, ⟨"p1.mp3", "one", ""⟩]
        [⟨"q.mp3", "new", ""⟩]
      = ([⟨"p0.mp3", "zero", ""⟩, ⟨"q.mp3", "new", ""⟩, ⟨"p1.mp3", "one", ""⟩], 1, 0) ∧
    ([⟨"p0.mp3", "zero", ""⟩, ⟨"q.mp3", "new", ""⟩, ⟨"p1.mp3", "one", ""⟩]
        : List TemplateItem)
      ≠ [⟨"p0.mp3", "zero", ""⟩, ⟨"p1.mp3", "one", ""⟩, ⟨"q.mp3", "new", ""⟩] := by
  decide

/-- C5 counterexample: a job of the AWS Polly variant whose external encode
run fails after writing part of its output.  The source hands the final
target path to the encoder as its destination, so the partial file sits at
the final target path when the job aborts: the output is not staged in a
temporary location and promoted atomically. -/
theorem C5_counterexample :
    pollyStep ⟨.ok, true, some (-3), .failPartial⟩ ⟨"a/x.mp3", "one", ""⟩ ⟨[], [], 0⟩
      = (.abortRun, ⟨[], ["a/x.mp3"], 0⟩, [.providerCall "a/x.mp3"]) := by
  decide

/-- C9 counterexample: a job of the AWS Polly variant where writing the
provider stream to the staging temp file fails with OSError.  The temp file
was created with delete=False and no handler unlinks it on this path, so one
temp file outlives the job. -/
theorem C9_counterexample :
    pollyStep ⟨.ok, false, some (-3), .ok⟩ ⟨"a/x.mp3", "one", ""⟩ ⟨[], [], 0⟩
      = (.abortRun, ⟨[], [], 1⟩, [.providerCall "a/x.mp3"]) := by
  decide

/-- C7 counterexample: a two-entry run of the TTS.Monster variant whose first
job hits a transient connection error.  The loop continues and the run
completes with return code 0, but the transient skip is recorded in no
counter: created_count counts only the second entry and skipped_count is
zero, so no tally counts the transient skip separately. -/
theorem C7_counterexample :
    syncRun (ttsmStep true)
        [(⟨"a/x.mp3", "one", ""⟩, ⟨.transient, true, none, .fail⟩),
         (⟨"a/y.mp3", "two words", ""⟩, ⟨.okUrl, true, some (-3), .ok 100⟩)]
        ⟨[], [], 0⟩ 0 0
      = ⟨0, 1, 0, ⟨["a/y.mp3"], [], 0⟩,
         [.providerCall "a/x.mp3", .transientLog "a/x.mp3",
          .providerCall "a/y.mp3"]⟩ := by
  decide

/-- C1 counterexample: a one-entry manifest whose sole job hits a transient
backend error, the backend unchanged between runs.  The first run returns 0;
the second run, against the same directory and manifest, again counts zero
entries as skipped and even issues a provider call, refuting that a second
run with no backend changes counts every entry as skipped and contacts the
provider for none. -/
theorem C1_counterexample :
    (syncRun (ttsmStep true)
        [(⟨"a/x.mp3", "one", ""⟩, ⟨.transient, true, none, .fail⟩)]
        ⟨[], [], 0⟩ 0 0).ret = 0 ∧
    (syncRun (ttsmStep true)
        [(⟨"a/x.mp3", "one", ""⟩, ⟨.transient, true, none, .fail⟩)]
        (syncRun (ttsmStep true)
          [(⟨"a/x.mp3", "one", ""⟩, ⟨.transient, true, none, .fail⟩)]
          ⟨[], [], 0⟩ 0 0).fs 0 0).skipped_count = 0 ∧
    (syncRun (ttsmStep true)
        [(⟨"a/x.mp3", "one", ""⟩, ⟨.transient, true, none, .fail⟩)]
        (syncRun (ttsmStep true)
          [(⟨"a/x.mp3", "one", ""⟩, ⟨.transient, true, none, .fail⟩)]
          ⟨[], [], 0⟩ 0 0).fs 0 0).events
      = [.providerCall "a/x.mp3", .transientLog "a/x.mp3"] ∧
    ([(⟨"a/x.mp3", "one", ""⟩, ⟨.transient, true, none, .fail⟩)]
        : List (TemplateItem × TtsmItemEnv)).length = 1 := by
  refine ⟨?_, ?_, ?_, ?_⟩ <;> decide

/-- C3: with quality checks enabled, a freshly generated file passes exactly
when its size is at most max_size of the text length, which is 2048*len for
len above the short-text threshold 9 and 3072*len at or below it; a file of
exactly the ceiling is created, one byte more is rejected, the rejected file
is deleted (the filesystem is unchanged), the rejection is recorded in the
event trace, and neither counter moves while the run continues with the next
entry. -/
theorem C3_quality_gate :
    (∀ n : Nat, SHORT_TEXT_LENGTH < n → max_size n = 2048 * n) ∧
    (∀ n : Nat, n ≤ SHORT_TEXT_LENGTH → max_size n = 3072 * n) ∧
    (∀ (item : TemplateItem) (v : ℚ) (size : Nat) (fs : FS),
      ¬ fs.existsAt item.path →
      (size ≤ max_size item.tts_text.length →
        ttsmStep true ⟨.okUrl, true, some v, .ok size⟩ item fs
          = (.created, { fs with files := item.path :: fs.files },
             [.providerCall item.path])) ∧
      (max_size item.tts_text.length < size →
        ttsmStep true ⟨.okUrl, true, some v, .ok size⟩ item fs
          = (.rejected, fs, [.providerCall item.path, .rejectedLog item.path]))) ∧
    (∀ (item : TemplateItem) (env : TtsmItemEnv)
       (rest : List (TemplateItem × TtsmItemEnv)) (fs : FS) (c k : Nat),
      ttsmStep true env item fs
          = (.rejected, fs, [.providerCall item.path, .rejectedLog item.path]) →
      syncRun (ttsmStep true) ((item, env) :: rest) fs c k
          = withEvents [.providerCall item.path, .rejectedLog item.path]
              (syncRun (ttsmStep true) rest fs c k)) := by
  refine ⟨?_, ?_, ?_, ?_⟩
  · intro n h
    simp only [max_size, SHORT_TEXT_LENGTH, BIT_ALLOWANCE_PER_CHAR,
      EXTRA_BITS_FOR_SHORT] at *
    split <;> omega
  · intro n h
    simp only [max_size, SHORT_TEXT_LENGTH, BIT_ALLOWANCE_PER_CHAR,
      EXTRA_BITS_FOR_SHORT] at *
    split <;> omega
  · intro item v size fs hex
    constructor
    · intro hle
      simp [ttsmStep, hex, Nat.not_lt.mpr hle]
    · intro hlt
      simp [ttsmStep, hex, hlt]
  · intro item env rest fs c k hstep
    simp only [syncRun, hstep]

/-- C10: in the AWS Polly variant, a job rejected by the backend as invalid
SSML is abandoned alone: the loop continues with the remaining entries and
neither counter moves, so a run whose remaining entries all succeed still
returns 0; any other synthesis failure of the same variant aborts the whole
directory with return value 1. -/
theorem C10_invalid_ssml_isolated :
    ∀ (env : PollyItemEnv) (item : TemplateItem)
      (rest : List (TemplateItem × PollyItemEnv)) (fs : FS) (c k : Nat),
      ¬ fs.existsAt item.path →
      (env.synth = .invalidSsml →
        pollyStep env item fs
          = (.droppedSsml, fs,
             [.providerCall item.path, .invalidSsmlLog item.path]) ∧
        syncRun pollyStep ((item, env) :: rest) fs c k
          = withEvents [.providerCall item.path, .invalidSsmlLog item.path]
              (syncRun pollyStep rest fs c k) ∧
        (syncRun pollyStep [(item, env)] fs c k).ret = 0) ∧
      (env.synth = .botoError →
        syncRun pollyStep ((item, env) :: rest) fs c k
          = ⟨1, c, k, fs, [.providerCall item.path]⟩) := by
  intro env item rest fs c k hex
  constructor
  · intro hsynth
    have hstep : pollyStep env item fs
        = (.droppedSsml, fs,
           [.providerCall item.path, .invalidSsmlLog item.path]) := by
      simp [pollyStep, hex, hsynth]
    refine ⟨hstep, ?_, ?_⟩
    · simp only [syncRun, hstep]
    · simp only [syncRun, hstep, withEvents]
  · intro hsynth
    have hstep : pollyStep env item fs
        = (.abortRun, fs, [.providerCall item.path]) := by
      simp [pollyStep, hex, hsynth]
    simp only [syncRun, hstep]

/-- C7 amended: a transient backend error on one job of the TTS.Monster
variant skips exactly that job with a logged diagnostic and an unchanged
filesystem, increments no counter (the skip is not counted in any tally),
and the loop continues with the remaining entries, whose processing alone
determines the rest of the result. -/
theorem C7_transient_amended :
    ∀ (q : Bool) (item : TemplateItem) (env : TtsmItemEnv)
      (rest : List (TemplateItem × TtsmItemEnv)) (fs : FS) (c k : Nat),
      env.gen = .transient → ¬ fs.existsAt item.path →
      ttsmStep q env item fs
          = (.transientSkip, fs,
             [.providerCall item.path, .transientLog item.path]) ∧
      syncRun (ttsmStep q) ((item, env) :: rest) fs c k
          = withEvents [.providerCall item.path, .transientLog item.path]
              (syncRun (ttsmStep q) rest fs c k) := by
  intro q item env rest fs c k hgen hex
  have hstep : ttsmStep q env item fs
      = (.transientSkip, fs,
         [.providerCall item.path, .transientLog item.path]) := by
    simp [ttsmStep, hex, hgen]
  exact ⟨hstep, by simp only [syncRun, hstep]⟩

/-- C9 amended: the TTS.Monster variant stages provider output in a
context-managed temp file that is removed on every exit path, so the live
temp count never changes; the AWS Polly variant removes its delete=False temp
file on success and on the analysis and encode error paths, so whenever the
write of the provider stream to the temp file succeeds the live temp count is
unchanged — but when that write itself fails, the job ends with one more live
temp file on disk. -/
theorem C9_temp_cleanup_amended :
    (∀ (q : Bool) (env : TtsmItemEnv) (item : TemplateItem) (fs : FS),
        ((ttsmStep q env item fs).2.1).temps = fs.temps) ∧
    (∀ (env : PollyItemEnv) (item : TemplateItem) (fs : FS),
        env.tempWriteOk = true → ((pollyStep env item fs).2.1).temps = fs.temps) ∧
    (∀ (env : PollyItemEnv) (item : TemplateItem) (fs : FS),
        env.synth = .ok → env.tempWriteOk = false → ¬ fs.existsAt item.path →
        ((pollyStep env item fs).2.1).temps = fs.temps + 1) := by
  refine ⟨?_, ?_, ?_⟩
  · intro q env item fs
    by_cases hex : fs.existsAt item.path
    · simp [ttsmStep, hex]
    · rcases env with ⟨gen, fetchOk, vol, enc⟩
      cases gen <;> cases fetchOk <;> rcases vol with _ | v <;>
        rcases enc with size | _ <;> simp [ttsmStep, hex] <;> split <;> rfl
  · intro env item fs htw
    by_cases hex : fs.existsAt item.path
    · simp [pollyStep, hex]
    · rcases env with ⟨synth, tw, vol, enc⟩
      simp only at htw
      subst htw
      cases synth <;> rcases vol with _ | v <;> cases enc <;> simp [pollyStep, hex]
  · intro env item fs hsynth htw hex
    rcases env with ⟨synth, tw, vol, enc⟩
    simp only at hsynth htw
    subst hsynth; subst htw
    simp [pollyStep, hex]

/-- C5 amended: an analysis failure happens before anything is written to
the final path, so it leaves no file there in either variant; a quality-gate
rejection deletes the just-written file, leaving the filesystem unchanged;
but the encode step writes directly to the final target path with no
temporary staging or atomic promotion, so an encode failure can leave a
partial file at the final target path. -/
theorem C5_no_staging_amended :
    (∀ (env : PollyItemEnv) (item : TemplateItem) (fs : FS),
        env.vol = none →
        ((pollyStep env item fs).2.1).files = fs.files ∧
        ((pollyStep env item fs).2.1).partials = fs.partials) ∧
    (∀ (q : Bool) (env : TtsmItemEnv) (item : TemplateItem) (fs : FS),
        env.vol = none → (ttsmStep q env item fs).2.1 = fs) ∧
    (∀ (item : TemplateItem) (v : ℚ) (size : Nat) (fs : FS),
        ¬ fs.existsAt item.path → max_size item.tts_text.length < size →
        (ttsmStep true ⟨.okUrl, true, some v, .ok size⟩ item fs).2.1 = fs) ∧
    (∀ (env : PollyItemEnv) (item : TemplateItem) (fs : FS) (v : ℚ),
        env.synth = .ok → env.tempWriteOk = true → env.vol = some v →
        env.encode = .failPartial → ¬ fs.existsAt item.path →
        ((pollyStep env item fs).2.1).partials = item.path :: fs.partials) := by
  refine ⟨?_, ?_, ?_, ?_⟩
  · intro env item fs hvol
    by_cases hex : fs.existsAt item.path
    · simp [pollyStep, hex]
    · rcases env with ⟨synth, tw, vol, enc⟩
      simp only at hvol
      subst hvol
      cases synth <;> cases tw <;> simp [pollyStep, hex]
  · intro q env item fs hvol
    by_cases hex : fs.existsAt item.path
    · simp [ttsmStep, hex]
    · rcases env with ⟨gen, fetchOk, vol, enc⟩
      simp only at hvol
      subst hvol
      cases gen <;> cases fetchOk <;> simp [ttsmStep, hex]
  · intro item v size fs hex hlt
    simp [ttsmStep, hex, hlt]
  · intro env item fs v hsynth htw hvol henc hex
    rcases env with ⟨synth, tw, vol, enc⟩
    simp only at hsynth htw hvol henc
    subst hsynth; subst htw; subst hvol; subst henc
    simp [pollyStep, hex]

/-- The two running counters can never exceed their start plus the number of
entries processed. -/
theorem syncRun_counts_le {E : Type}
    (step : E → TemplateItem → FS → ItemOutcome × FS × List SyncEvent) :
    ∀ (jobs : List (TemplateItem × E)) (fs : FS) (c k : Nat),
      (syncRun step jobs fs c k).created_count
        + (syncRun step jobs fs c k).skipped_count ≤ c + k + jobs.length := by
  intro jobs
  induction jobs with
  | nil => intro fs c k; simp [syncRun]
  | cons job rest ih =>
    intro fs c k
    rcases hst : step job.2 job.1 fs with ⟨out, fs2, evs⟩
    cases out <;> simp only [syncRun, hst, withEvents, List.length_cons] <;>
      first
        | (have h := ih fs2 c (k + 1); omega)
        | (have h := ih fs2 (c + 1) k; omega)
        | (have h := ih fs2 c k; omega)
        | omega

/-- A path that exists before a run still exists after it, provided each
single step preserves existing paths. -/
theorem syncRun_fs_mono {E : Type}
    (step : E → TemplateItem → FS → ItemOutcome × FS × List SyncEvent)
    (hmono : ∀ (e : E) (item : TemplateItem) (fs : FS) (p : String),
      fs.existsAt p → ((step e item fs).2.1).existsAt p) :
    ∀ (jobs : List (TemplateItem × E)) (fs : FS) (c k : Nat) (p : String),
      fs.existsAt p → ((syncRun step jobs fs c k).fs).existsAt p := by
  intro jobs
  induction jobs with
  | nil => intro fs c k p h; simpa [syncRun] using h
  | cons job rest ih =>
    intro fs c k p h
    have h2 := hmono job.2 job.1 fs p h
    rcases hst : step job.2 job.1 fs with ⟨out, fs2, evs⟩
    rw [hst] at h2
    cases out <;> simp only [syncRun, hst, withEvents] <;>
      first | exact h2 | exact ih fs2 _ _ p h2

/-- When every entry of the job list already exists on disk, the run skips
them all: return code 0, nothing created, every entry counted as skipped,
the filesystem untouched and no event (hence no provider call) emitted. -/
theorem syncRun_all_skip {E : Type}
    (step : E → TemplateItem → FS → ItemOutcome × FS × List SyncEvent)
    (hskip : ∀ (e : E) (item : TemplateItem) (fs : FS),
      fs.existsAt item.path → step e item fs = (.skippedExisting, fs, [])) :
    ∀ (jobs : List (TemplateItem × E)) (fs : FS) (c k : Nat),
      (∀ je ∈ jobs, fs.existsAt je.1.path) →
      syncRun step jobs fs c k = ⟨0, c, k + jobs.length, fs, []⟩ := by
  intro jobs
  induction jobs with
  | nil => intro fs c k h; simp [syncRun]
  | cons job rest ih =>
    intro fs c k h
    have hj := h job (List.mem_cons_self _ _)
    have hst := hskip job.2 job.1 fs hj
    simp only [syncRun, hst, withEvents]
    rw [ih fs c (k + 1) (fun je hje => h je (List.mem_cons_of_mem _ hje))]
    simp only [List.length_cons, List.nil_append]
    congr 1
    omega

/-- If a run ends with created plus skipped equal to start plus the full
entry count, then every entry target exists in the final filesystem.  The
step function must report skippedExisting only for existing targets without
touching the filesystem, must leave the target existing when it reports
created, and must preserve existing paths. -/
theorem syncRun_complete_exists {E : Type}
    (step : E → TemplateItem → FS → ItemOutcome × FS × List SyncEvent)
    (hmono : ∀ (e : E) (item : TemplateItem) (fs : FS) (p : String),
      fs.existsAt p → ((step e item fs).2.1).existsAt p)
    (hskipinv : ∀ (e : E) (item : TemplateItem) (fs : FS),
      (step e item fs).1 = .skippedExisting →
      (step e item fs).2.1 = fs ∧ fs.existsAt item.path)
    (hcre : ∀ (e : E) (item : TemplateItem) (fs : FS),
      (step e item fs).1 = .created → ((step e item fs).2.1).existsAt item.path) :
    ∀ (jobs : List (TemplateItem × E)) (fs : FS) (c k : Nat),
      (syncRun step jobs fs c k).created_count
          + (syncRun step jobs fs c k).skipped_count = c + k + jobs.length →
      ∀ je ∈ jobs, ((syncRun step jobs fs c k).fs).existsAt je.1.path := by
  intro jobs
  induction jobs with
  | nil => intro fs c k _ je hje; cases hje
  | cons job rest ih =>
    intro fs c k hsum je hje
    rcases hst : step job.2 job.1 fs with ⟨out, fs2, evs⟩
    cases out
    case abortRun =>
      exfalso
      simp only [syncRun, hst, List.length_cons] at hsum
      omega
    case skippedExisting =>
      have hsi := hskipinv job.2 job.1 fs (by rw [hst])
      rw [hst] at hsi
      simp only at hsi
      simp only [syncRun, hst, withEvents, List.length_cons] at hsum ⊢
      rcases List.mem_cons.mp hje with heq | hje2
      · subst heq
        exact syncRun_fs_mono step hmono rest fs2 c (k + 1) _ (hsi.1 ▸ hsi.2)
      · exact ih fs2 c (k + 1) (by omega) je hje2
    case created =>
      have hc := hcre job.2 job.1 fs (by rw [hst])
      rw [hst] at hc
      simp only at hc
      simp only [syncRun, hst, withEvents, List.length_cons] at hsum ⊢
      rcases List.mem_cons.mp hje with heq | hje2
      · subst heq
        exact syncRun_fs_mono step hmono rest fs2 (c + 1) k _ hc
      · exact ih fs2 (c + 1) k (by omega) je hje2
    case droppedSsml =>
      exfalso
      simp only [syncRun, hst, withEvents, List.length_cons] at hsum
      have := syncRun_counts_le step rest fs2 c k
      omega
    case transientSkip =>
      exfalso
      simp only [syncRun, hst, withEvents, List.length_cons] at hsum
      have := syncRun_counts_le step rest fs2 c k
      omega
    case rejected =>
      exfalso
      simp only [syncRun, hst, withEvents, List.length_cons] at hsum
      have := syncRun_counts_le step rest fs2 c k
      omega

/-- An existing target makes the AWS Polly step skip: nothing changes, no
event is emitted. -/
theorem pollyStep_skip (env : PollyItemEnv) (item : TemplateItem) (fs : FS)
    (h : fs.existsAt item.path) :
    pollyStep env item fs = (.skippedExisting, fs, []) := by
  simp [pollyStep, h]

/-- An existing target makes the TTS.Monster step skip: nothing changes, no
event is emitted. -/
theorem ttsmStep_skip (q : Bool) (env : TtsmItemEnv) (item : TemplateItem)
    (fs : FS) (h : fs.existsAt item.path) :
    ttsmStep q env item fs = (.skippedExisting, fs, []) := by
  simp [ttsmStep, h]

/-- The AWS Polly step never removes an existing path. -/
theorem pollyStep_mono (env : PollyItemEnv) (item : TemplateItem) (fs : FS)
    (p : String) (h : fs.existsAt p) :
    ((pollyStep env item fs).2.1).existsAt p := by
  by_cases hex : fs.existsAt item.path
  · simpa [pollyStep, hex] using h
  · rcases env with ⟨synth, tw, vol, enc⟩
    cases synth <;> cases tw <;> rcases vol with _ | v <;> cases enc <;>
      simp_all [pollyStep, hex, FS.existsAt, List.mem_cons] <;> tauto

/-- The TTS.Monster step never removes an existing path. -/
theorem ttsmStep_mono (q : Bool) (env : TtsmItemEnv) (item : TemplateItem)
    (fs : FS) (p : String) (h : fs.existsAt p) :
    ((ttsmStep q env item fs).2.1).existsAt p := by
  by_cases hex : fs.existsAt item.path
  · simpa [ttsmStep, hex] using h
  · rcases env with ⟨gen, fetchOk, vol, enc⟩
    cases gen <;> cases fetchOk <;> rcases vol with _ | v <;>
      rcases enc with size | _ <;>
      simp_all [ttsmStep, hex, FS.existsAt, List.mem_cons] <;>
      first
        | tauto
        | (split <;> simp [FS.existsAt, List.mem_cons] <;> tauto)

/-- The AWS Polly step reports skippedExisting only when the target already
existed, and then touches nothing. -/
theorem pollyStep_skip_inv (env : PollyItemEnv) (item : TemplateItem) (fs : FS)
    (h : (pollyStep env item fs).1 = .skippedExisting) :
    (pollyStep env item fs).2.1 = fs ∧ fs.existsAt item.path := by
  by_cases hex : fs.existsAt item.path
  · simp [pollyStep, hex]
  · exfalso
    rcases env with ⟨synth, tw, vol, enc⟩
    cases synth <;> cases tw <;> rcases vol with _ | v <;> cases enc <;>
      simp_all [pollyStep, hex]

/-- The TTS.Monster step reports skippedExisting only when the target already
existed, and then touches nothing. -/
theorem ttsmStep_skip_inv (q : Bool) (env : TtsmItemEnv) (item : TemplateItem)
    (fs : FS) (h : (ttsmStep q env item fs).1 = .skippedExisting) :
    (ttsmStep q env item fs).2.1 = fs ∧ fs.existsAt item.path := by
  by_cases hex : fs.existsAt item.path
  · simp [ttsmStep, hex]
  · exfalso
    rcases env with ⟨gen, fetchOk, vol, enc⟩
    cases gen <;> cases fetchOk <;> rcases vol with _ | v <;>
      rcases enc with size | _ <;>
      simp_all [ttsmStep, hex] <;> split at h <;> simp_all

/-- When the AWS Polly step reports created, the target exists afterwards. -/
theorem pollyStep_created_exists (env : PollyItemEnv) (item : TemplateItem)
    (fs : FS) (h : (pollyStep env item fs).1 = .created) :
    ((pollyStep env item fs).2.1).existsAt item.path := by
  by_cases hex : fs.existsAt item.path
  · simpa [pollyStep, hex] using hex
  · rcases env with ⟨synth, tw, vol, enc⟩
    cases synth <;> cases tw <;> rcases vol with _ | v <;> cases enc <;>
      simp_all [pollyStep, hex, FS.existsAt, List.mem_cons]

/-- When the TTS.Monster step reports created, the target exists afterwards. -/
theorem ttsmStep_created_exists (q : Bool) (env : TtsmItemEnv)
    (item : TemplateItem) (fs : FS) (h : (ttsmStep q env item fs).1 = .created) :
    ((ttsmStep q env item fs).2.1).existsAt item.path := by
  by_cases hex : fs.existsAt item.path
  · simpa [ttsmStep, hex] using hex
  · rcases env with ⟨gen, fetchOk, vol, enc⟩
    cases gen <;> cases fetchOk <;> rcases vol with _ | v <;>
      rcases enc with size | _ <;>
      simp_all [ttsmStep, hex, FS.existsAt, List.mem_cons] <;>
      split <;> simp_all [List.mem_cons] <;> omega

/-- C1 amended: in both variants, an entry whose target file already exists
at the start of the run is counted as skipped, triggers no provider call and
leaves the filesystem untouched; and whenever a first run ends with every
entry either created or skipped, a second run against the resulting directory
and the same manifest creates zero new files, counts every entry as skipped,
emits no event (so no provider call) and returns 0.  Entries the first run
left unmaterialized (transient-skipped, SSML-dropped, quality-rejected or
beyond an abort) are re-attempted, not skipped, on the second run. -/
theorem C1_skip_and_idempotence_amended :
    (∀ (env : PollyItemEnv) (item : TemplateItem) (fs : FS),
        fs.existsAt item.path →
        pollyStep env item fs = (.skippedExisting, fs, [])) ∧
    (∀ (q : Bool) (env : TtsmItemEnv) (item : TemplateItem) (fs : FS),
        fs.existsAt item.path →
        ttsmStep q env item fs = (.skippedExisting, fs, [])) ∧
    (∀ (jobs : List (TemplateItem × PollyItemEnv)) (fs : FS),
        (syncRun pollyStep jobs fs 0 0).created_count
            + (syncRun pollyStep jobs fs 0 0).skipped_count = jobs.length →
        syncRun pollyStep jobs (syncRun pollyStep jobs fs 0 0).fs 0 0
          = ⟨0, 0, jobs.length, (syncRun pollyStep jobs fs 0 0).fs, []⟩) ∧
    (∀ (q : Bool) (jobs : List (TemplateItem × TtsmItemEnv)) (fs : FS),
        (syncRun (ttsmStep q) jobs fs 0 0).created_count
            + (syncRun (ttsmStep q) jobs fs 0 0).skipped_count = jobs.length →
        syncRun (ttsmStep q) jobs (syncRun (ttsmStep q) jobs fs 0 0).fs 0 0
          = ⟨0, 0, jobs.length, (syncRun (ttsmStep q) jobs fs 0 0).fs, []⟩) := by
  refine ⟨pollyStep_skip, ttsmStep_skip, ?_, ?_⟩
  · intro jobs fs hsum
    have hexists := syncRun_complete_exists pollyStep pollyStep_mono
      pollyStep_skip_inv pollyStep_created_exists jobs fs 0 0 (by omega)
    have h := syncRun_all_skip pollyStep pollyStep_skip jobs
      (syncRun pollyStep jobs fs 0 0).fs 0 0 hexists
    simpa using h
  · intro q jobs fs hsum
    have hexists := syncRun_complete_exists (ttsmStep q) (ttsmStep_mono q)
      (ttsmStep_skip_inv q) (ttsmStep_created_exists q) jobs fs 0 0 (by omega)
    have h := syncRun_all_skip (ttsmStep q) (ttsmStep_skip q) jobs
      (syncRun (ttsmStep q) jobs fs 0 0).fs 0 0 hexists
    simpa using h

/-- Witness for C1 amended: a pre-existing target is skipped untouched, and
after a first run that created its single entry, the second run skips
everything with no events. -/
theorem C1_skip_and_idempotence_amended_witness :
    ttsmStep true ⟨.okUrl, true, some (-3), .ok 100⟩ ⟨"a/x.mp3", "one", ""⟩
        ⟨["a/x.mp3"], [], 0⟩ = (.skippedExisting, ⟨["a/x.mp3"], [], 0⟩, []) ∧
    syncRun (ttsmStep true)
        [(⟨"a/x.mp3", "one", ""⟩, ⟨.okUrl, true, some (-3), .ok 100⟩)]
        (syncRun (ttsmStep true)
          [(⟨"a/x.mp3", "one", ""⟩, ⟨.okUrl, true, some (-3), .ok 100⟩)]
          ⟨[], [], 0⟩ 0 0).fs 0 0
      = ⟨0, 0, 1,
         (syncRun (ttsmStep true)
           [(⟨"a/x.mp3", "one", ""⟩, ⟨.okUrl, true, some (-3), .ok 100⟩)]
           ⟨[], [], 0⟩ 0 0).fs, []⟩ :=
  ⟨C1_skip_and_idempotence_amended.2.1 true ⟨.okUrl, true, some (-3), .ok 100⟩
      ⟨"a/x.mp3", "one", ""⟩ ⟨["a/x.mp3"], [], 0⟩ (by decide),
   C1_skip_and_idempotence_amended.2.2.2 true
      [(⟨"a/x.mp3", "one", ""⟩, ⟨.okUrl, true, some (-3), .ok 100⟩)]
      ⟨[], [], 0⟩ (by decide)⟩

/-- Witness for C3 at the boundary: text of length 10 has ceiling 2048*10,
text of length 9 has ceiling 3072*9; for the three-character text abc a file
of exactly the ceiling is created, one byte more is rejected with the
filesystem unchanged, and the run continues past the rejection. -/
theorem C3_quality_gate_witness :
    max_size 10 = 2048 * 10 ∧ max_size 9 = 3072 * 9 ∧
    ttsmStep true ⟨.okUrl, true, some (-3), .ok (max_size 3)⟩
        ⟨"a.mp3", "abc", ""⟩ ⟨[], [], 0⟩
      = (.created, ⟨["a.mp3"], [], 0⟩, [.providerCall "a.mp3"]) ∧
    ttsmStep true ⟨.okUrl, true, some (-3), .ok (max_size 3 + 1)⟩
        ⟨"a.mp3", "abc", ""⟩ ⟨[], [], 0⟩
      = (.rejected, ⟨[], [], 0⟩, [.providerCall "a.mp3", .rejectedLog "a.mp3"]) ∧
    syncRun (ttsmStep true)
        [(⟨"a.mp3", "abc", ""⟩, ⟨.okUrl, true, some (-3), .ok (max_size 3 + 1)⟩)]
        ⟨[], [], 0⟩ 0 0
      = withEvents [.providerCall "a.mp3", .rejectedLog "a.mp3"]
          (syncRun (ttsmStep true) [] ⟨[], [], 0⟩ 0 0) := by
  refine ⟨C3_quality_gate.1 10 (by decide), C3_quality_gate.2.1 9 (by decide),
    ?_, ?_, ?_⟩
  · exact (C3_quality_gate.2.2.1 ⟨"a.mp3", "abc", ""⟩ (-3) (max_size 3)
      ⟨[], [], 0⟩ (by decide)).1 (by decide)
  · exact (C3_quality_gate.2.2.1 ⟨"a.mp3", "abc", ""⟩ (-3) (max_size 3 + 1)
      ⟨[], [], 0⟩ (by decide)).2 (by decide)
  · exact C3_quality_gate.2.2.2 ⟨"a.mp3", "abc", ""⟩
      ⟨.okUrl, true, some (-3), .ok (max_size 3 + 1)⟩ [] ⟨[], [], 0⟩ 0 0
      ((C3_quality_gate.2.2.1 ⟨"a.mp3", "abc", ""⟩ (-3) (max_size 3 + 1)
        ⟨[], [], 0⟩ (by decide)).2 (by decide))

/-- Witness for C5 amended: analysis failure leaves nothing at a final path
in either variant, a quality rejection leaves the filesystem unchanged, and
an encode failure of the AWS Polly variant leaves a partial file at the
final target path. -/
theorem C5_no_staging_amended_witness :
    (((pollyStep ⟨.ok, true, none, .ok⟩ ⟨"a/x.mp3", "one", ""⟩
        ⟨[], [], 0⟩).2.1).files = [] ∧
     ((pollyStep ⟨.ok, true, none, .ok⟩ ⟨"a/x.mp3", "one", ""⟩
        ⟨[], [], 0⟩).2.1).partials = []) ∧
    (ttsmStep true ⟨.okUrl, true, none, .ok 100⟩ ⟨"a/x.mp3", "one", ""⟩
        ⟨[], [], 0⟩).2.1 = ⟨[], [], 0⟩ ∧
    (ttsmStep true ⟨.okUrl, true, some (-3), .ok 99999⟩ ⟨"a/x.mp3", "one", ""⟩
        ⟨[], [], 0⟩).2.1 = ⟨[], [], 0⟩ ∧
    ((pollyStep ⟨.ok, true, some (-3), .failPartial⟩ ⟨"a/x.mp3", "one", ""⟩
        ⟨[], [], 0⟩).2.1).partials = ["a/x.mp3"] :=
  ⟨C5_no_staging_amended.1 ⟨.ok, true, none, .ok⟩ ⟨"a/x.mp3", "one", ""⟩
      ⟨[], [], 0⟩ rfl,
   C5_no_staging_amended.2.1 true ⟨.okUrl, true, none, .ok 100⟩
      ⟨"a/x.mp3", "one", ""⟩ ⟨[], [], 0⟩ rfl,
   C5_no_staging_amended.2.2.1 ⟨"a/x.mp3", "one", ""⟩ (-3) 99999
      ⟨[], [], 0⟩ (by decide) (by decide),
   C5_no_staging_amended.2.2.2 ⟨.ok, true, some (-3), .failPartial⟩
      ⟨"a/x.mp3", "one", ""⟩ ⟨[], [], 0⟩ (-3) rfl rfl rfl rfl (by decide)⟩

/-- Witness for C7 amended: a concrete transient job is skipped with its log
events and the run reduces to the run over the remaining entries. -/
theorem C7_transient_amended_witness :
    ttsmStep true ⟨.transient, true, none, .fail⟩ ⟨"a/x.mp3", "one", ""⟩
        ⟨[], [], 0⟩
      = (.transientSkip, ⟨[], [], 0⟩,
         [.providerCall "a/x.mp3", .transientLog "a/x.mp3"]) ∧
    syncRun (ttsmStep true)
        [(⟨"a/x.mp3", "one", ""⟩, ⟨.transient, true, none, .fail⟩)]
        ⟨[], [], 0⟩ 0 0
      = withEvents [.providerCall "a/x.mp3", .transientLog "a/x.mp3"]
          (syncRun (ttsmStep true) [] ⟨[], [], 0⟩ 0 0) :=
  C7_transient_amended true ⟨"a/x.mp3", "one", ""⟩ ⟨.transient, true, none, .fail⟩
    [] ⟨[], [], 0⟩ 0 0 rfl (by decide)

/-- Witness for C9 amended: with five live temp files, a TTS.Monster job and
a successful-temp-write AWS Polly job end with five, while the failing
temp-write AWS Polly job ends with six. -/
theorem C9_temp_cleanup_amended_witness :
    ((ttsmStep true ⟨.okUrl, true, some (-3), .ok 100⟩ ⟨"a/x.mp3", "one", ""⟩
        ⟨[], [], 5⟩).2.1).temps = 5 ∧
    ((pollyStep ⟨.ok, true, some (-3), .ok⟩ ⟨"a/x.mp3", "one", ""⟩
        ⟨[], [], 5⟩).2.1).temps = 5 ∧
    ((pollyStep ⟨.ok, false, some (-3), .ok⟩ ⟨"a/x.mp3", "one", ""⟩
        ⟨[], [], 5⟩).2.1).temps = 5 + 1 :=
  ⟨C9_temp_cleanup_amended.1 true ⟨.okUrl, true, some (-3), .ok 100⟩
      ⟨"a/x.mp3", "one", ""⟩ ⟨[], [], 5⟩,
   C9_temp_cleanup_amended.2.1 ⟨.ok, true, some (-3), .ok⟩
      ⟨"a/x.mp3", "one", ""⟩ ⟨[], [], 5⟩ rfl,
   C9_temp_cleanup_amended.2.2 ⟨.ok, false, some (-3), .ok⟩
      ⟨"a/x.mp3", "one", ""⟩ ⟨[], [], 5⟩ rfl rfl (by decide)⟩

/-- Witness for C10: a concrete invalid-SSML job is dropped with the run
continuing and returning 0, while a concrete other synthesis failure aborts
the directory with return value 1. -/
theorem C10_invalid_ssml_isolated_witness :
    (pollyStep ⟨.invalidSsml, true, none, .ok⟩ ⟨"a/x.mp3", "one", ""⟩
        ⟨[], [], 0⟩
      = (.droppedSsml, ⟨[], [], 0⟩,
         [.providerCall "a/x.mp3", .invalidSsmlLog "a/x.mp3"]) ∧
     syncRun pollyStep
        [(⟨"a/x.mp3", "one", ""⟩, ⟨.invalidSsml, true, none, .ok⟩)]
        ⟨[], [], 0⟩ 0 0
      = withEvents [.providerCall "a/x.mp3", .invalidSsmlLog "a/x.mp3"]
          (syncRun pollyStep [] ⟨[], [], 0⟩ 0 0) ∧
     (syncRun pollyStep
        [(⟨"a/x.mp3", "one", ""⟩, ⟨.invalidSsml, true, none, .ok⟩)]
        ⟨[], [], 0⟩ 0 0).ret = 0) ∧
    syncRun pollyStep
        [(⟨"a/x.mp3", "one", ""⟩, ⟨.botoError, true, none, .ok⟩)]
        ⟨[], [], 0⟩ 0 0
      = ⟨1, 0, 0, ⟨[], [], 0⟩, [.providerCall "a/x.mp3"]⟩ :=
  ⟨(C10_invalid_ssml_isolated ⟨.invalidSsml, true, none, .ok⟩
      ⟨"a/x.mp3", "one", ""⟩ [] ⟨[], [], 0⟩ 0 0 (by decide)).1 rfl,
   (C10_invalid_ssml_isolated ⟨.botoError, true, none, .ok⟩
      ⟨"a/x.mp3", "one", ""⟩ [] ⟨[], [], 0⟩ 0 0 (by decide)).2 rfl⟩

/-- syncTargets distributes over append. -/
theorem syncTargets_append (l1 l2 : List OrchEvent) :
    syncTargets (l1 ++ l2) = syncTargets l1 ++ syncTargets l2 := by
  induction l1 with
  | nil => rfl
  | cons e r ih => cases e <;> simp [syncTargets, ih]

/-- The directories driven by one AWS Polly group pass are exactly the
valid (sounds-containing) directories, in order, whatever the per-directory
return codes. -/
theorem syncTargets_driveGroup_polly (ret : String → Nat) (dirs : List PackDir) :
    syncTargets (driveGroup .syncPolly ret dirs)
      = (dirs.filter (fun d => d.hasSounds)).map PackDir.name := by
  induction dirs with
  | nil => rfl
  | cons d r ih =>
    by_cases hs : d.hasSounds = true <;> by_cases hr : ret d.name = 0 <;>
      simp [driveGroup, concatMap, syncTargets_append, hs, hr, syncTargets,
        List.filter_cons] <;>
      simpa [driveGroup] using ih

/-- The directories driven by one TTS.Monster group pass are exactly the
valid (sounds-containing) directories, in order, whatever the per-directory
return codes. -/
theorem syncTargets_driveGroup_ttsm (ret : String → Nat) (dirs : List PackDir) :
    syncTargets (driveGroup .syncTtsm ret dirs)
      = (dirs.filter (fun d => d.hasSounds)).map PackDir.name := by
  induction dirs with
  | nil => rfl
  | cons d r ih =>
    by_cases hs : d.hasSounds = true <;> by_cases hr : ret d.name = 0 <;>
      simp [driveGroup, concatMap, syncTargets_append, hs, hr, syncTargets,
        List.filter_cons] <;>
      simpa [driveGroup] using ih

/-- Driving a group never emits the prompt event. -/
theorem prompt_not_mem_driveGroup (sync : String → OrchEvent)
    (ret : String → Nat) (dirs : List PackDir)
    (hsync : ∀ n, sync n ≠ OrchEvent.prompt) :
    OrchEvent.prompt ∉ driveGroup sync ret dirs := by
  induction dirs with
  | nil => simp [driveGroup, concatMap]
  | cons d r ih =>
    simp only [driveGroup, concatMap]
    intro hmem
    rcases List.mem_append.mp hmem with h1 | h2
    · split at h1
      · simp at h1
      · rcases List.mem_cons.mp h1 with he | h3
        · exact hsync d.name he.symm
        · split at h3 <;> simp at h3
    · exact ih (by simpa [driveGroup] using h2)

/-- A failing valid directory is reported with an error log event. -/
theorem syncErrorLog_mem_driveGroup (sync : String → OrchEvent)
    (ret : String → Nat) (dirs : List PackDir) (d : PackDir)
    (hd : d ∈ dirs) (hs : d.hasSounds = true) (hr : ret d.name ≠ 0) :
    OrchEvent.syncErrorLog d.name ∈ driveGroup sync ret dirs := by
  induction dirs with
  | nil => cases hd
  | cons e r ih =>
    simp only [driveGroup, concatMap]
    rcases List.mem_cons.mp hd with heq | h2
    · subst heq
      apply List.mem_append_left
      simp [hs, hr]
    · exact List.mem_append_right _ (by simpa [driveGroup] using ih h2)

/-- Driving a group emits only skip, sync and error-log events, so never a
synthesis-free marker mismatch: every event of a group pass that is not a
synthesis event is a skip or error log.  In particular the prompt count of a
group pass is zero. -/
theorem count_prompt_driveGroup (sync : String → OrchEvent)
    (ret : String → Nat) (dirs : List PackDir)
    (hsync : ∀ n, sync n ≠ OrchEvent.prompt) :
    (driveGroup sync ret dirs).count OrchEvent.prompt = 0 :=
  List.count_eq_zero.mpr (prompt_not_mem_driveGroup sync ret dirs hsync)

/-- The result of update_all_soundpacks when all credentials are present and
both clients initialize: return code 0 and the trace laid out in source
order — client initializations, then the prompt exactly when either group
has missing work, then on confirmation the two group passes. -/
theorem update_all_soundpacks_shape (c : OrchConfig)
    (h1 : c.awsProfileSet = true) (h2 : c.pollyInitOk = true)
    (h3 : c.ttsmKeySet = true) (h4 : c.ttsmInitOk = true) :
    update_all_soundpacks c =
      (0,
        (if 0 < (count_missing_for_service c.pollyDirs c.items).1
          then [OrchEvent.pollyClientInit] else [])
        ++ (if 0 < (count_missing_for_service c.ttsmDirs c.items).1
          then [OrchEvent.ttsmClientInit] else [])
        ++ (if 0 < (count_missing_for_service c.ttsmDirs c.items).1
              ∨ 0 < (count_missing_for_service c.pollyDirs c.items).1
            then OrchEvent.prompt ::
              (if c.confirm = false then []
               else (if 0 < (count_missing_for_service c.pollyDirs c.items).1
                  then driveGroup .syncPolly c.pollyRet c.pollyDirs else [])
                ++ (if 0 < (count_missing_for_service c.ttsmDirs c.items).1
                  then driveGroup .syncTtsm c.ttsmRet c.ttsmDirs else []))
            else [])) := by
  by_cases hp : 0 < (count_missing_for_service c.pollyDirs c.items).1 <;>
    by_cases ht : 0 < (count_missing_for_service c.ttsmDirs c.items).1 <;>
    by_cases hc : c.confirm = false <;>
    simp [update_all_soundpacks, h1, h2, h3, h4, hp, ht, hc]

/-- The confirmation block of the trace never contains the prompt event. -/
theorem prompt_not_mem_confirm_block (c : OrchConfig) :
    OrchEvent.prompt ∉ (if c.confirm = false then ([] : List OrchEvent)
      else (if 0 < (count_missing_for_service c.pollyDirs c.items).1
          then driveGroup .syncPolly c.pollyRet c.pollyDirs else [])
        ++ (if 0 < (count_missing_for_service c.ttsmDirs c.items).1
          then driveGroup .syncTtsm c.ttsmRet c.ttsmDirs else [])) := by
  split
  · simp
  · intro h
    rcases List.mem_append.mp h with h1 | h2
    · split at h1
      · exact prompt_not_mem_driveGroup _ _ _ (fun n => by simp) h1
      · simp at h1
    · split at h2
      · exact prompt_not_mem_driveGroup _ _ _ (fun n => by simp) h2
      · simp at h2

/-- C6 counterexample: a fleet run with one TTS.Monster pack missing one
file.  The trace shows the TTS.Monster client initialization — which reads
the account usage from the backend over the network — strictly before the
confirmation prompt, so a network call is made before the operator confirms. -/
theorem C6_counterexample :
    (update_all_soundpacks C6cfg).2 = [.ttsmClientInit, .prompt] ∧
    isNetworkEvent .ttsmClientInit = true ∧
    ((update_all_soundpacks C6cfg).2.takeWhile
        (fun e => decide (e ≠ OrchEvent.prompt))).any isNetworkEvent = true := by
  refine ⟨?_, ?_, ?_⟩ <;> decide

/-- C6 amended: with credentials present and both clients initializing, a
fleet run returns 0; when either provider group has missing work the trace
contains the prompt exactly once, preceded only by non-synthesis events (the
client initializations — including the TTS.Monster usage query, a network
read that precedes the prompt); when nothing is missing the trace is empty
(no prompt); and when the operator declines, no synchronizer is driven. -/
theorem C6_prompt_gate_amended :
    ∀ c : OrchConfig, c.awsProfileSet = true → c.pollyInitOk = true →
      c.ttsmKeySet = true → c.ttsmInitOk = true →
      (update_all_soundpacks c).1 = 0 ∧
      ((0 < (count_missing_for_service c.ttsmDirs c.items).1
          ∨ 0 < (count_missing_for_service c.pollyDirs c.items).1) →
        ∃ l1 l2, (update_all_soundpacks c).2 = l1 ++ OrchEvent.prompt :: l2 ∧
          OrchEvent.prompt ∉ l1 ∧ OrchEvent.prompt ∉ l2 ∧
          l1.all (fun e => !isSynthesisEvent e) = true) ∧
      (¬ (0 < (count_missing_for_service c.ttsmDirs c.items).1
          ∨ 0 < (count_missing_for_service c.pollyDirs c.items).1) →
        (update_all_soundpacks c).2 = []) ∧
      (c.confirm = false → syncTargets (update_all_soundpacks c).2 = []) := by
  intro c h1 h2 h3 h4
  rw [update_all_soundpacks_shape c h1 h2 h3 h4]
  refine ⟨rfl, ?_, ?_, ?_⟩
  · intro hmiss
    by_cases hp : 0 < (count_missing_for_service c.pollyDirs c.items).1 <;>
      by_cases ht : 0 < (count_missing_for_service c.ttsmDirs c.items).1
    · exact ⟨[OrchEvent.pollyClientInit, OrchEvent.ttsmClientInit],
        (if c.confirm = false then [] else
          (if 0 < (count_missing_for_service c.pollyDirs c.items).1
            then driveGroup .syncPolly c.pollyRet c.pollyDirs else [])
          ++ (if 0 < (count_missing_for_service c.ttsmDirs c.items).1
            then driveGroup .syncTtsm c.ttsmRet c.ttsmDirs else [])),
        by simp [hp, ht], by decide, prompt_not_mem_confirm_block c, by decide⟩
    · exact ⟨[OrchEvent.pollyClientInit],
        (if c.confirm = false then [] else
          (if 0 < (count_missing_for_service c.pollyDirs c.items).1
            then driveGroup .syncPolly c.pollyRet c.pollyDirs else [])
          ++ (if 0 < (count_missing_for_service c.ttsmDirs c.items).1
            then driveGroup .syncTtsm c.ttsmRet c.ttsmDirs else [])),
        by simp [hp, ht], by decide, prompt_not_mem_confirm_block c, by decide⟩
    · exact ⟨[OrchEvent.ttsmClientInit],
        (if c.confirm = false then [] else
          (if 0 < (count_missing_for_service c.pollyDirs c.items).1
            then driveGroup .syncPolly c.pollyRet c.pollyDirs else [])
          ++ (if 0 < (count_missing_for_service c.ttsmDirs c.items).1
            then driveGroup .syncTtsm c.ttsmRet c.ttsmDirs else [])),
        by simp [hp, ht], by decide, prompt_not_mem_confirm_block c, by decide⟩
    · exact absurd hmiss (by simp [hp, ht])
  · intro hmiss
    rw [not_or] at hmiss
    simp [hmiss.1, hmiss.2]
  · intro hc
    by_cases hp : 0 < (count_missing_for_service c.pollyDirs c.items).1 <;>
      by_cases ht : 0 < (count_missing_for_service c.ttsmDirs c.items).1 <;>
      simp [hp, ht, hc, syncTargets_append, syncTargets]

/-- Witness for C6 amended at the concrete declining configuration: return
code 0, a trace with the prompt occurring once after only non-synthesis
events, and no synchronizer driven. -/
theorem C6_prompt_gate_amended_witness :
    (update_all_soundpacks C6cfg).1 = 0 ∧
    ((0 < (count_missing_for_service C6cfg.ttsmDirs C6cfg.items).1
        ∨ 0 < (count_missing_for_service C6cfg.pollyDirs C6cfg.items).1) →
      ∃ l1 l2, (update_all_soundpacks C6cfg).2 = l1 ++ OrchEvent.prompt :: l2 ∧
        OrchEvent.prompt ∉ l1 ∧ OrchEvent.prompt ∉ l2 ∧
        l1.all (fun e => !isSynthesisEvent e) = true) ∧
    (¬ (0 < (count_missing_for_service C6cfg.ttsmDirs C6cfg.items).1
        ∨ 0 < (count_missing_for_service C6cfg.pollyDirs C6cfg.items).1) →
      (update_all_soundpacks C6cfg).2 = []) ∧
    (C6cfg.confirm = false → syncTargets (update_all_soundpacks C6cfg).2 = []) :=
  C6_prompt_gate_amended C6cfg rfl rfl rfl rfl

/-- C8: with credentials present, clients initializing and the operator
confirming, the list of directories driven by the orchestrator is exactly
the valid directories of each provider group with missing work, in
provider-group order — an expression independent of every per-directory
return code, so one aborting directory never prevents the others from being
processed — and every valid failing directory is reported with an error-log
event. -/
theorem C8_failure_isolation :
    ∀ c : OrchConfig, c.awsProfileSet = true → c.pollyInitOk = true →
      c.ttsmKeySet = true → c.ttsmInitOk = true → c.confirm = true →
      syncTargets (update_all_soundpacks c).2
        = (if 0 < (count_missing_for_service c.pollyDirs c.items).1
            then (c.pollyDirs.filter (fun d => d.hasSounds)).map PackDir.name
            else [])
          ++ (if 0 < (count_missing_for_service c.ttsmDirs c.items).1
            then (c.ttsmDirs.filter (fun d => d.hasSounds)).map PackDir.name
            else []) ∧
      (∀ d ∈ c.pollyDirs, d.hasSounds = true →
        0 < (count_missing_for_service c.pollyDirs c.items).1 →
        c.pollyRet d.name ≠ 0 →
        OrchEvent.syncErrorLog d.name ∈ (update_all_soundpacks c).2) ∧
      (∀ d ∈ c.ttsmDirs, d.hasSounds = true →
        0 < (count_missing_for_service c.ttsmDirs c.items).1 →
        c.ttsmRet d.name ≠ 0 →
        OrchEvent.syncErrorLog d.name ∈ (update_all_soundpacks c).2) := by
  intro c h1 h2 h3 h4 h5
  rw [update_all_soundpacks_shape c h1 h2 h3 h4]
  refine ⟨?_, ?_, ?_⟩
  · by_cases hp : 0 < (count_missing_for_service c.pollyDirs c.items).1 <;>
      by_cases ht : 0 < (count_missing_for_service c.ttsmDirs c.items).1 <;>
      simp [hp, ht, h5, syncTargets_append, syncTargets,
        syncTargets_driveGroup_polly, syncTargets_driveGroup_ttsm]
  · intro d hd hs hp2 hr
    have hmem := syncErrorLog_mem_driveGroup OrchEvent.syncPolly c.pollyRet
      c.pollyDirs d hd hs hr
    by_cases ht : 0 < (count_missing_for_service c.ttsmDirs c.items).1 <;>
      simp [hp2, ht, h5, List.mem_append, List.mem_cons] <;> tauto
  · intro d hd hs ht2 hr
    have hmem := syncErrorLog_mem_driveGroup OrchEvent.syncTtsm c.ttsmRet
      c.ttsmDirs d hd hs hr
    by_cases hp : 0 < (count_missing_for_service c.pollyDirs c.items).1 <;>
      simp [hp, ht2, h5, List.mem_append, List.mem_cons] <;> tauto

/-- Witness for C8 at the concrete confirming configuration whose first AWS
Polly pack fails: both packs are driven in order and the failure is
reported. -/
theorem C8_failure_isolation_witness :
    syncTargets (update_all_soundpacks C8cfg).2
      = ["AWSPolly-Amy", "AWSPolly-Brian"] ∧
    OrchEvent.syncErrorLog "AWSPolly-Amy" ∈ (update_all_soundpacks C8cfg).2 :=
  ⟨(C8_failure_isolation C8cfg rfl rfl rfl rfl rfl).1,
   (C8_failure_isolation C8cfg rfl rfl rfl rfl rfl).2.1
     ⟨"AWSPolly-Amy", true, []⟩ (List.mem_cons_self _ _) rfl (by decide)
     (by decide)⟩
